import Mathlib

/-!
A shallow embedding of the debug command handlers of
`src/watchman/cmds/debug.cpp` (the watchman filesystem-watching service).

JSON values are modelled by an inductive `JVal`; each command handler becomes
a pure Lean function from the relevant state (client, root, process-wide
poison record) and the JSON argument list to the updated state together with
either a response (`Except.ok`) or the error message passed to
`sendErrorResponse` (`Except.error`, the C++ `return nullptr` path).

Core operations that the command file calls but whose bodies live outside the
staged sources (`set_poison_state`, `Root::scheduleRecrawl`,
`Root::performAgeOut`, `make_response`, `Log::timeString`) are modelled from
the specification, as recorded in their doc comments.
-/

namespace Watchman

/-- JSON values as manipulated by the command handlers (`json_ref`):
null, booleans, integers, strings, arrays and objects (ordered field lists). -/
inductive JVal where
  | jnull
  | jbool (b : Bool)
  | jint (n : Int)
  | jstr (s : String)
  | jarr (elems : List JVal)
  | jobj (fields : List (String × JVal))

/-- `json_ref::isBool()`. -/
def JVal.isBool : JVal → Bool
  | .jbool _ => true
  | _ => false

/-- `json_ref::asBool()`; only ever called on values checked with `isBool`. -/
def JVal.asBool : JVal → Bool
  | .jbool b => b
  | _ => false

/-- `json_ref::asInt()`; only ever called on integer arguments. -/
def JVal.asInt : JVal → Int
  | .jint n => n
  | _ => 0

/-- Modelled from the spec: response shaping (`make_response()`) is out-of-scope
glue ("JSON-RPC-style response shaping ... OUT OF SCOPE"), so a fresh response
is modelled as an empty field list to which the handlers add their fields. -/
def make_response : List (String × JVal) := []

/-- One buffered entry of a subscription's ring of recent responses
(`ClientSubscription::lastResponses`): a written timestamp and the response. -/
structure SubscriptionResponse where
  written : Nat
  response : JVal

/-- A client subscription as the debug commands see it: the `debug_paused`
flag, the identity of the owning root (`sub->root.get()`, modelled as a
numeric identity), and the buffered ring of recent responses. -/
structure ClientSubscription where
  debug_paused : Bool
  rootId : Nat
  lastResponses : List SubscriptionResponse

/-- A connected user client: its unique id and its named subscriptions
(`client->subscriptions`, a map modelled as an association list). -/
structure UserClient where
  unique_id : Nat
  subscriptions : List (String × ClientSubscription)

/-- `client->subscriptions.find(name)` on the association-list model:
the first binding of `name`, if any. -/
def findSub : List (String × ClientSubscription) → String → Option ClientSubscription
  | [], _ => none
  | (n, s) :: rest, name => if n = name then some s else findSub rest name

/-- `sub_iter->second->debug_paused = b`: update the `debug_paused` flag of the
binding of `name` (the map holds at most one binding per name). -/
def setSubPaused : List (String × ClientSubscription) → String → Bool →
    List (String × ClientSubscription)
  | [], _, _ => []
  | (n, s) :: rest, name, b =>
    if n = name then (n, { s with debug_paused := b }) :: rest
    else (n, s) :: setSubPaused rest name b

/-- The validation loop of `cmd_debug_set_subscriptions_paused`: walk the
`paused` object; the first name with no subscription, or the first value that
is not a boolean, produces the error message sent to the client. -/
def validatePausedArgs (client : UserClient) : List (String × JVal) → Option String
  | [] => none
  | (name, v) :: rest =>
    match findSub client.subscriptions name with
    | none => some ("this client does not have a subscription named " ++ name)
    | some _ =>
      if v.isBool then validatePausedArgs client rest
      else some ("new value for subscription " ++ name ++ " not a boolean")

/-- The mutation loop of `cmd_debug_set_subscriptions_paused`: for each entry
set the subscription's `debug_paused` flag to the supplied boolean and record
`{"old": prior value, "new": supplied value}` under the subscription's name.
(The `none` arm is unreachable after validation; it skips the entry.) -/
def applyPaused : List (String × ClientSubscription) → List (String × JVal) →
    List (String × ClientSubscription) × List (String × JVal)
  | subs, [] => (subs, [])
  | subs, (name, v) :: rest =>
    match findSub subs name with
    | none => applyPaused subs rest
    | some sub =>
      let subs1 := setSubPaused subs name v.asBool
      let out := applyPaused subs1 rest
      (out.1,
       (name, JVal.jobj [("old", JVal.jbool sub.debug_paused), ("new", v)]) :: out.2)

/-- `cmd_debug_set_subscriptions_paused`: validate every entry of the paused
map first; on any failure send the error and leave the client untouched;
otherwise apply every entry and answer with the per-name old/new states. -/
def cmd_debug_set_subscriptions_paused (client : UserClient)
    (paused_map : List (String × JVal)) : UserClient × Except String JVal :=
  match validatePausedArgs client paused_map with
  | some e => (client, Except.error e)
  | none =>
    let out := applyPaused client.subscriptions paused_map
    ({ client with subscriptions := out.1 },
     Except.ok (JVal.jobj (make_response ++ [("paused", JVal.jobj out.2)])))

/-- The `debug_paused` flag of the client's subscription named `name`, prior
to or after a call (`none` when the client has no such subscription). -/
def subPausedFlag (client : UserClient) (name : String) : Option Bool :=
  (findSub client.subscriptions name).map ClientSubscription.debug_paused

/-- The prior value of the `debug_paused` flag read by the mutation loop
(`old_paused`); only meaningful for names that refer to a subscription. -/
def oldPaused (client : UserClient) (name : String) : Bool :=
  (subPausedFlag client name).getD false

/-- Statistics of one LRU cache (`CacheStats`), as read by `stats()`. -/
structure CacheStats where
  cacheHit : Nat
  cacheShare : Nat
  cacheMiss : Nat
  cacheEvict : Nat
  cacheStore : Nat
  cacheLoad : Nat
  cacheErase : Nat
  clearCount : Nat
  size : Nat

/-- The two derived caches reachable through `view->debugAccessCaches()`,
each represented by the statistics its `stats()` call returns. -/
structure ViewCaches where
  contentHashCache : CacheStats
  symlinkTargetCache : CacheStats

/-- The root's view: either the in-memory implementation (the target of the
`std::dynamic_pointer_cast<InMemoryView>`), or some other implementation for
which the downcast yields null. -/
inductive RootView where
  | inMemory (caches : ViewCaches)
  | generic

/-- `root->inner`: the cursor registry, a map from cursor name to its tick. -/
structure RootInner where
  cursors : List (String × Nat)

/-- A watched root as the debug commands see it. `scheduledRecrawls` and
`ageOutsPerformed` are event logs recording the administrative triggers the
command layer forwards to the core. -/
structure Root where
  root_path : String
  inner : RootInner
  view : RootView
  scheduledRecrawls : List String
  ageOutsPerformed : List Int

/-- Modelled from the spec: `Root::scheduleRecrawl(reason)` is a core
administrative trigger whose body is not among the staged sources
("`scheduleRecrawl(reason: string)` ... administrative triggers"); modelled
as appending the reason to the root's recrawl event log. -/
def Root.scheduleRecrawl (root : Root) (reason : String) : Root :=
  { root with scheduledRecrawls := root.scheduledRecrawls ++ [reason] }

/-- Modelled from the spec: `Root::performAgeOut(min_age)` is a core
administrative trigger whose body is not among the staged sources
("`performAgeOut(min_age: duration)` ... administrative triggers"); modelled
as appending the minimum age (whole seconds) to the root's ageout event log. -/
def Root.performAgeOut (root : Root) (min_age : Int) : Root :=
  { root with ageOutsPerformed := root.ageOutsPerformed ++ [min_age] }

/-- `cmd_debug_recrawl`: with exactly 2 arguments, schedule a recrawl with
reason "debug-recrawl" and answer `{"recrawl": true}`; otherwise send an
error response and do nothing. -/
def cmd_debug_recrawl (root : Root) (args : List JVal) : Root × Except String JVal :=
  if args.length ≠ 2 then
    (root, Except.error "wrong number of arguments for 'debug-recrawl'")
  else
    let root := root.scheduleRecrawl "debug-recrawl"
    (root, Except.ok (JVal.jobj (make_response ++ [("recrawl", JVal.jbool true)])))

/-- `cmd_debug_show_cursors`: with exactly 2 arguments, answer with one
`name ↦ tick` integer entry per cursor of the root, under a read lock;
otherwise send an error response. -/
def cmd_debug_show_cursors (root : Root) (args : List JVal) :
    Root × Except String JVal :=
  if args.length ≠ 2 then
    (root, Except.error "wrong number of arguments for 'debug-show-cursors'")
  else
    let cursors := JVal.jobj (root.inner.cursors.map fun p => (p.1, JVal.jint p.2))
    (root, Except.ok (JVal.jobj (make_response ++ [("cursors", cursors)])))

/-- `cmd_debug_ageout`: with exactly 3 arguments, perform ageout with a
minimum age of `args[2]` seconds and answer `{"ageout": true}`; otherwise
send an error response and do nothing. -/
def cmd_debug_ageout (root : Root) (args : List JVal) : Root × Except String JVal :=
  if args.length ≠ 3 then
    (root, Except.error "wrong number of arguments for 'debug-ageout'")
  else
    let min_age := (args.getD 2 JVal.jnull).asInt
    let root := root.performAgeOut min_age
    (root, Except.ok (JVal.jobj (make_response ++ [("ageout", JVal.jbool true)])))

/-- The process-wide poison record: root path, timestamp, reason string and
error code; `none` until the first `set_poison_state` call. -/
structure PoisonRecord where
  path : String
  timestamp : Nat
  reason : String
  errCode : Nat

/-- The process-wide poison state (`poisoned_reason` and friends). -/
structure PoisonState where
  record : Option PoisonRecord

/-- The POSIX out-of-memory error number passed by `cmd_debug_poison`. -/
def ENOMEM : Nat := 12

/-- Modelled from the spec: `set_poison_state` lives outside the staged
sources. "Once set it is sticky ... setting while already set overwrites
(last write wins) but does not un-poison": every call installs a full record
for the given path, timestamp, reason and error code. -/
def set_poison_state (_ps : PoisonState) (path : String) (now : Nat)
    (reason : String) (err : Nat) : PoisonState :=
  { record := some { path := path, timestamp := now, reason := reason, errCode := err } }

/-- Modelled from the spec: the process-wide poison reason read back by
`poisoned_reason.rlock()`; empty while no poison record is set. -/
def poisoned_reason (ps : PoisonState) : String :=
  (ps.record.map PoisonRecord.reason).getD ""

/-- `cmd_debug_poison`: set the process-wide poison record for the root's
path with the current time, reason "debug-poison" and ENOMEM, and answer
with the poison reason now in effect. -/
def cmd_debug_poison (ps : PoisonState) (root : Root) (now : Nat) :
    PoisonState × JVal :=
  let ps := set_poison_state ps root.root_path now "debug-poison" ENOMEM
  (ps, JVal.jobj (make_response ++ [("poison", JVal.jstr (poisoned_reason ps))]))

/-- The base client state touched by `cmd_debug_drop_privs`. -/
structure Client where
  client_is_owner : Bool

/-- `cmd_debug_drop_privs`: clear the client's owner flag and answer with the
flag's current (cleared) value. -/
def cmd_debug_drop_privs (client : Client) : Client × JVal :=
  let client := { client with client_is_owner := false }
  (client,
   JVal.jobj (make_response ++ [("owner", JVal.jbool client.client_is_owner)]))

/-- `addCacheStats`: add the nine statistics fields of one cache to the
response. -/
def addCacheStats (resp : List (String × JVal)) (stats : CacheStats) :
    List (String × JVal) :=
  resp ++
    [("cacheHit", JVal.jint stats.cacheHit),
     ("cacheShare", JVal.jint stats.cacheShare),
     ("cacheMiss", JVal.jint stats.cacheMiss),
     ("cacheEvict", JVal.jint stats.cacheEvict),
     ("cacheStore", JVal.jint stats.cacheStore),
     ("cacheLoad", JVal.jint stats.cacheLoad),
     ("cacheErase", JVal.jint stats.cacheErase),
     ("clearCount", JVal.jint stats.clearCount),
     ("size", JVal.jint stats.size)]

/-- `debugContentHashCache` (command "debug-contenthash"): with exactly 2
arguments and an in-memory view, answer with the content-hash cache's
statistics; otherwise send an error response. -/
def debugContentHashCache (root : Root) (args : List JVal) :
    Root × Except String JVal :=
  if args.length ≠ 2 then
    (root, Except.error "wrong number of arguments for 'debug-contenthash'")
  else
    match root.view with
    | RootView.generic => (root, Except.error "root is not an InMemoryView watcher")
    | RootView.inMemory caches =>
      (root, Except.ok (JVal.jobj (addCacheStats make_response caches.contentHashCache)))

/-- `debugSymlinkTargetCache` (command "debug-symlink-target-cache"): with
exactly 2 arguments and an in-memory view, answer with the symlink-target
cache's statistics; otherwise send an error response. -/
def debugSymlinkTargetCache (root : Root) (args : List JVal) :
    Root × Except String JVal :=
  if args.length ≠ 2 then
    (root, Except.error "wrong number of arguments for 'debug-symlink-target-cache'")
  else
    match root.view with
    | RootView.generic => (root, Except.error "root is not an InMemoryView watcher")
    | RootView.inMemory caches =>
      (root, Except.ok (JVal.jobj (addCacheStats make_response caches.symlinkTargetCache)))

/-- Modelled from the spec: `Log::timeString` (formatting of a buffered
response's written timestamp) is not among the staged sources; modelled as
rendering the timestamp. -/
def timeString (written : Nat) : String := toString written

/-- One entry of a subscription's `lastResponses` ring as
`getDebugSubscriptionInfo` serializes it. -/
def lastResponseJson (r : SubscriptionResponse) : JVal :=
  JVal.jobj [("written_time", JVal.jstr (timeString r.written)),
             ("response", r.response)]

/-- The record `getDebugSubscriptionInfo` emits for one subscription of one
client: its name, the owning client's id and the buffered responses. -/
def subscriptionInfoJson (uc : UserClient) (name : String)
    (sub : ClientSubscription) : JVal :=
  JVal.jobj [("name", JVal.jstr name),
             ("client_id", JVal.jint uc.unique_id),
             ("last_responses", JVal.jarr (sub.lastResponses.map lastResponseJson))]

/-- The inner loop of `getDebugSubscriptionInfo`: walk one client's
subscriptions and emit a record for each one whose owning root is the
requested root. -/
def subsInfoForClient (uc : UserClient) (rootId : Nat) :
    List (String × ClientSubscription) → List JVal
  | [] => []
  | (name, sub) :: rest =>
    if sub.rootId = rootId then
      subscriptionInfoJson uc name sub :: subsInfoForClient uc rootId rest
    else
      subsInfoForClient uc rootId rest

/-- `getDebugSubscriptionInfo`: the outer loop over all connected clients
(`UserClient::getAllClients()`), collecting the matching subscription
records of each. -/
def getDebugSubscriptionInfo : List UserClient → Nat → List JVal
  | [], _ => []
  | uc :: rest, rootId =>
    subsInfoForClient uc rootId uc.subscriptions ++ getDebugSubscriptionInfo rest rootId

/-! Sample states used by the concrete witnesses. -/

/-- Sample cache statistics with nine distinct counters. -/
def sampleStats : CacheStats := ⟨1, 2, 3, 4, 5, 6, 7, 8, 9⟩

/-- Sample pair of derived caches. -/
def sampleCaches : ViewCaches := ⟨sampleStats, ⟨10, 20, 30, 40, 50, 60, 70, 80, 90⟩⟩

/-- A sample root whose view is not the in-memory implementation. -/
def sampleRoot : Root :=
  { root_path := "/data/repo",
    inner := { cursors := [("cur-one", 3), ("cur-two", 7)] },
    view := RootView.generic,
    scheduledRecrawls := [],
    ageOutsPerformed := [] }

/-- The same sample root with an in-memory view carrying `sampleCaches`. -/
def sampleRootInMemory : Root := { sampleRoot with view := RootView.inMemory sampleCaches }

/-- A sample two-element argument array `["command", "/data/repo"]`. -/
def sampleArgs2 : List JVal := [JVal.jstr "debug-cmd", JVal.jstr "/data/repo"]

/-- A sample three-element argument array whose third element is the integer 5. -/
def sampleArgs3 : List JVal := [JVal.jstr "debug-ageout", JVal.jstr "/data/repo", JVal.jint 5]

/-- A sample client with two subscriptions on root 1, one paused. -/
def c1client : UserClient :=
  { unique_id := 7,
    subscriptions :=
      [("sub-a", { debug_paused := false, rootId := 1, lastResponses := [] }),
       ("sub-b", { debug_paused := true, rootId := 1, lastResponses := [] })] }

/-- A sample paused map pausing sub-a and resuming sub-b. -/
def c1pm : List (String × JVal) := [("sub-a", JVal.jbool true), ("sub-b", JVal.jbool false)]

/-- A sample client with a single subscription. -/
def c2client : UserClient :=
  { unique_id := 9,
    subscriptions := [("sub-a", { debug_paused := false, rootId := 2, lastResponses := [] })] }

/-- A sample paused map with one valid name and one unknown name. -/
def c2pm : List (String × JVal) :=
  [("sub-a", JVal.jbool true), ("missing", JVal.jbool true)]

/-- C10: every call to debug-drop-privs sets the calling client's owner flag
to false regardless of its prior value and answers owner = false; a second
call leaves both the client state and the response unchanged (idempotence). -/
theorem c10_drop_privs_idempotent (client : Client) :
    (cmd_debug_drop_privs client).1.client_is_owner = false ∧
    (cmd_debug_drop_privs client).2 =
      JVal.jobj (make_response ++ [("owner", JVal.jbool false)]) ∧
    cmd_debug_drop_privs (cmd_debug_drop_privs client).1 = cmd_debug_drop_privs client :=
  ⟨rfl, rfl, rfl⟩

/-- C6: every debug-poison call installs the process-wide poison record for
the root's path with the current timestamp, reason "debug-poison" and the
out-of-memory error code, and answers with the poison reason in effect after
the call; the record is then set, and a later call overwrites it (last write
wins) without ever clearing the poisoned condition. -/
theorem c6_poison_sticky (ps : PoisonState) (root root2 : Root) (now now2 : Nat) :
    (cmd_debug_poison ps root now).1.record =
      some ⟨root.root_path, now, "debug-poison", ENOMEM⟩ ∧
    (cmd_debug_poison ps root now).2 =
      JVal.jobj (make_response ++
        [("poison", JVal.jstr (poisoned_reason (cmd_debug_poison ps root now).1))]) ∧
    poisoned_reason (cmd_debug_poison ps root now).1 = "debug-poison" ∧
    (cmd_debug_poison (cmd_debug_poison ps root now).1 root2 now2).1.record =
      some ⟨root2.root_path, now2, "debug-poison", ENOMEM⟩ ∧
    ((cmd_debug_poison (cmd_debug_poison ps root now).1 root2 now2).1.record.isSome = true) :=
  ⟨rfl, rfl, rfl, rfl, rfl⟩

/-- C4: with a well-formed argument array, debug-show-cursors answers with
exactly one `name ↦ tick` integer entry per cursor registered on the root and
leaves the root (and so the cursor registry) unchanged. -/
theorem c4_show_cursors_snapshot (root : Root) (args : List JVal)
    (hlen : args.length = 2) :
    cmd_debug_show_cursors root args =
      (root, Except.ok (JVal.jobj (make_response ++
        [("cursors",
          JVal.jobj (root.inner.cursors.map fun p => (p.1, JVal.jint p.2)))]))) := by
  simp [cmd_debug_show_cursors, hlen]

/-- Witness for C4 at a concrete root with two cursors. -/
theorem c4_show_cursors_snapshot_witness :
    cmd_debug_show_cursors sampleRoot sampleArgs2 =
      (sampleRoot, Except.ok (JVal.jobj (make_response ++
        [("cursors",
          JVal.jobj (sampleRoot.inner.cursors.map fun p => (p.1, JVal.jint p.2)))]))) :=
  c4_show_cursors_snapshot sampleRoot sampleArgs2 rfl

/-- C7: with well-formed argument arrays, debug-recrawl schedules exactly one
recrawl with reason "debug-recrawl" and answers recrawl = true, and
debug-ageout performs exactly one ageout with minimum age equal to its third
argument in whole seconds and answers ageout = true. -/
theorem c7_recrawl_ageout_forwarding (root : Root) (args2 args3 : List JVal)
    (k : Int) (h2 : args2.length = 2) (h3 : args3.length = 3)
    (hk : args3.getD 2 JVal.jnull = JVal.jint k) :
    cmd_debug_recrawl root args2 =
      ({ root with scheduledRecrawls := root.scheduledRecrawls ++ ["debug-recrawl"] },
       Except.ok (JVal.jobj (make_response ++ [("recrawl", JVal.jbool true)]))) ∧
    cmd_debug_ageout root args3 =
      ({ root with ageOutsPerformed := root.ageOutsPerformed ++ [k] },
       Except.ok (JVal.jobj (make_response ++ [("ageout", JVal.jbool true)]))) := by
  constructor
  · simp [cmd_debug_recrawl, h2, Root.scheduleRecrawl]
  · obtain ⟨a, b, c, rfl⟩ := List.length_eq_three.mp h3
    have hc : c = JVal.jint k := by simpa using hk
    subst hc
    simp [cmd_debug_ageout, Root.performAgeOut, JVal.asInt]

/-- Witness for C7 at a concrete root, two-element and three-element argument
arrays (age 5 seconds). -/
theorem c7_recrawl_ageout_forwarding_witness :
    cmd_debug_recrawl sampleRoot sampleArgs2 =
      ({ sampleRoot with scheduledRecrawls := sampleRoot.scheduledRecrawls ++ ["debug-recrawl"] },
       Except.ok (JVal.jobj (make_response ++ [("recrawl", JVal.jbool true)]))) ∧
    cmd_debug_ageout sampleRoot sampleArgs3 =
      ({ sampleRoot with ageOutsPerformed := sampleRoot.ageOutsPerformed ++ [5] },
       Except.ok (JVal.jobj (make_response ++ [("ageout", JVal.jbool true)]))) :=
  c7_recrawl_ageout_forwarding sampleRoot sampleArgs2 sampleArgs3 5 rfl rfl rfl

/-- C8: a call to debug-recrawl, debug-show-cursors, debug-contenthash or
debug-symlink-target-cache whose argument array is not of length 2, and a
call to debug-ageout whose argument array is not of length 3, answers an
error and returns the root unchanged, with no recrawl scheduled and no
ageout performed. -/
theorem c8_arity_check_first (root : Root) (args : List JVal) :
    (args.length ≠ 2 →
      cmd_debug_recrawl root args =
        (root, Except.error "wrong number of arguments for 'debug-recrawl'") ∧
      cmd_debug_show_cursors root args =
        (root, Except.error "wrong number of arguments for 'debug-show-cursors'") ∧
      debugContentHashCache root args =
        (root, Except.error "wrong number of arguments for 'debug-contenthash'") ∧
      debugSymlinkTargetCache root args =
        (root, Except.error "wrong number of arguments for 'debug-symlink-target-cache'")) ∧
    (args.length ≠ 3 →
      cmd_debug_ageout root args =
        (root, Except.error "wrong number of arguments for 'debug-ageout'")) := by
  constructor
  · intro h
    exact ⟨by simp [cmd_debug_recrawl, h], by simp [cmd_debug_show_cursors, h],
      by simp [debugContentHashCache, h], by simp [debugSymlinkTargetCache, h]⟩
  · intro h
    simp [cmd_debug_ageout, h]

/-- Witness for C8 at a concrete root and the empty argument array. -/
theorem c8_arity_check_first_witness :
    (cmd_debug_recrawl sampleRoot [] =
      (sampleRoot, Except.error "wrong number of arguments for 'debug-recrawl'") ∧
     cmd_debug_show_cursors sampleRoot [] =
      (sampleRoot, Except.error "wrong number of arguments for 'debug-show-cursors'") ∧
     debugContentHashCache sampleRoot [] =
      (sampleRoot, Except.error "wrong number of arguments for 'debug-contenthash'") ∧
     debugSymlinkTargetCache sampleRoot [] =
      (sampleRoot, Except.error "wrong number of arguments for 'debug-symlink-target-cache'")) ∧
    cmd_debug_ageout sampleRoot [] =
      (sampleRoot, Except.error "wrong number of arguments for 'debug-ageout'") :=
  ⟨(c8_arity_check_first sampleRoot []).1 (by decide),
   (c8_arity_check_first sampleRoot []).2 (by decide)⟩

/-- C9: with a well-formed argument array but a view that is not the
in-memory implementation, debug-contenthash and debug-symlink-target-cache
both fail with an error response, return no statistics and leave the root
unchanged; as the view is either the in-memory implementation or not, the
successful path is reachable only when the downcast succeeds. -/
theorem c9_requires_inmemory_view (root : Root) (args : List JVal)
    (hlen : args.length = 2) (hview : root.view = RootView.generic) :
    debugContentHashCache root args =
      (root, Except.error "root is not an InMemoryView watcher") ∧
    debugSymlinkTargetCache root args =
      (root, Except.error "root is not an InMemoryView watcher") := by
  constructor <;>
    simp [debugContentHashCache, debugSymlinkTargetCache, hlen, hview]

/-- Witness for C9 at a concrete root whose view is not in-memory. -/
theorem c9_requires_inmemory_view_witness :
    debugContentHashCache sampleRoot sampleArgs2 =
      (sampleRoot, Except.error "root is not an InMemoryView watcher") ∧
    debugSymlinkTargetCache sampleRoot sampleArgs2 =
      (sampleRoot, Except.error "root is not an InMemoryView watcher") :=
  c9_requires_inmemory_view sampleRoot sampleArgs2 rfl rfl

/-- C3 counterexample: at concrete statistics, the cache-stats record's field
names are cacheHit, cacheShare, cacheMiss, cacheEvict, cacheStore, cacheLoad,
cacheErase, clearCount and size; in particular no field is named "hits" as
the claim states. -/
theorem c3_cache_stats_field_names_counterexample :
    ((addCacheStats make_response sampleStats).map Prod.fst =
      ["cacheHit", "cacheShare", "cacheMiss", "cacheEvict", "cacheStore",
       "cacheLoad", "cacheErase", "clearCount", "size"]) ∧
    "hits" ∉ (addCacheStats make_response sampleStats).map Prod.fst := by
  constructor
  · rfl
  · decide

/-- C3 (amended): for each derived cache, the cache-stats query answers a
record containing exactly the nine fields cacheHit, cacheShare, cacheMiss,
cacheEvict, cacheStore, cacheLoad, cacheErase, clearCount and size, each an
integer taken from that cache's statistics, and no other fields. -/
theorem c3_cache_stats_nine_fields (root : Root) (args : List JVal)
    (caches : ViewCaches) (hlen : args.length = 2)
    (hview : root.view = RootView.inMemory caches) :
    (debugContentHashCache root args).2 = Except.ok (JVal.jobj
      [("cacheHit", JVal.jint caches.contentHashCache.cacheHit),
       ("cacheShare", JVal.jint caches.contentHashCache.cacheShare),
       ("cacheMiss", JVal.jint caches.contentHashCache.cacheMiss),
       ("cacheEvict", JVal.jint caches.contentHashCache.cacheEvict),
       ("cacheStore", JVal.jint caches.contentHashCache.cacheStore),
       ("cacheLoad", JVal.jint caches.contentHashCache.cacheLoad),
       ("cacheErase", JVal.jint caches.contentHashCache.cacheErase),
       ("clearCount", JVal.jint caches.contentHashCache.clearCount),
       ("size", JVal.jint caches.contentHashCache.size)]) ∧
    (debugSymlinkTargetCache root args).2 = Except.ok (JVal.jobj
      [("cacheHit", JVal.jint caches.symlinkTargetCache.cacheHit),
       ("cacheShare", JVal.jint caches.symlinkTargetCache.cacheShare),
       ("cacheMiss", JVal.jint caches.symlinkTargetCache.cacheMiss),
       ("cacheEvict", JVal.jint caches.symlinkTargetCache.cacheEvict),
       ("cacheStore", JVal.jint caches.symlinkTargetCache.cacheStore),
       ("cacheLoad", JVal.jint caches.symlinkTargetCache.cacheLoad),
       ("cacheErase", JVal.jint caches.symlinkTargetCache.cacheErase),
       ("clearCount", JVal.jint caches.symlinkTargetCache.clearCount),
       ("size", JVal.jint caches.symlinkTargetCache.size)]) := by
  constructor <;>
    simp [debugContentHashCache, debugSymlinkTargetCache, hlen, hview,
      addCacheStats, make_response]

/-- Witness for the amended C3 at a concrete root with concrete statistics. -/
theorem c3_cache_stats_nine_fields_witness :
    (debugContentHashCache sampleRootInMemory sampleArgs2).2 = Except.ok (JVal.jobj
      [("cacheHit", JVal.jint sampleCaches.contentHashCache.cacheHit),
       ("cacheShare", JVal.jint sampleCaches.contentHashCache.cacheShare),
       ("cacheMiss", JVal.jint sampleCaches.contentHashCache.cacheMiss),
       ("cacheEvict", JVal.jint sampleCaches.contentHashCache.cacheEvict),
       ("cacheStore", JVal.jint sampleCaches.contentHashCache.cacheStore),
       ("cacheLoad", JVal.jint sampleCaches.contentHashCache.cacheLoad),
       ("cacheErase", JVal.jint sampleCaches.contentHashCache.cacheErase),
       ("clearCount", JVal.jint sampleCaches.contentHashCache.clearCount),
       ("size", JVal.jint sampleCaches.contentHashCache.size)]) ∧
    (debugSymlinkTargetCache sampleRootInMemory sampleArgs2).2 = Except.ok (JVal.jobj
      [("cacheHit", JVal.jint sampleCaches.symlinkTargetCache.cacheHit),
       ("cacheShare", JVal.jint sampleCaches.symlinkTargetCache.cacheShare),
       ("cacheMiss", JVal.jint sampleCaches.symlinkTargetCache.cacheMiss),
       ("cacheEvict", JVal.jint sampleCaches.symlinkTargetCache.cacheEvict),
       ("cacheStore", JVal.jint sampleCaches.symlinkTargetCache.cacheStore),
       ("cacheLoad", JVal.jint sampleCaches.symlinkTargetCache.cacheLoad),
       ("cacheErase", JVal.jint sampleCaches.symlinkTargetCache.cacheErase),
       ("clearCount", JVal.jint sampleCaches.symlinkTargetCache.clearCount),
       ("size", JVal.jint sampleCaches.symlinkTargetCache.size)]) :=
  c3_cache_stats_nine_fields sampleRootInMemory sampleArgs2 sampleCaches rfl rfl

/-! Helper lemmas about the subscription map operations. -/

/-- Updating the paused flag of one name leaves lookups of other names
unchanged. -/
theorem findSub_setSubPaused_ne (subs : List (String × ClientSubscription))
    (name m : String) (b : Bool) (h : m ≠ name) :
    findSub (setSubPaused subs name b) m = findSub subs m := by
  induction subs with
  | nil => rfl
  | cons head rest ih =>
    obtain ⟨n, s⟩ := head
    by_cases hn : n = name
    · have hnm : ¬name = m := fun hc => h hc.symm
      simp [setSubPaused, findSub, hn, hnm]
    · simp only [setSubPaused, if_neg hn, findSub]
      by_cases hm : n = m
      · simp [hm]
      · simp [hm, ih]

/-- Looking up the updated name finds the updated flag. -/
theorem findSub_setSubPaused_self (subs : List (String × ClientSubscription))
    (name : String) (b : Bool) :
    findSub (setSubPaused subs name b) name =
      (findSub subs name).map fun s => { s with debug_paused := b } := by
  induction subs with
  | nil => rfl
  | cons head rest ih =>
    obtain ⟨n, s⟩ := head
    by_cases hn : n = name
    · simp [setSubPaused, findSub, hn]
    · simp [setSubPaused, findSub, hn, ih]

/-- Updating a paused flag preserves which names have a subscription. -/
theorem findSub_setSubPaused_isSome (subs : List (String × ClientSubscription))
    (name m : String) (b : Bool) :
    (findSub (setSubPaused subs name b) m).isSome = (findSub subs m).isSome := by
  by_cases h : m = name
  · subst h
    rw [findSub_setSubPaused_self]
    cases findSub subs m <;> rfl
  · rw [findSub_setSubPaused_ne subs name m b h]

/-- The mutation loop leaves subscriptions whose names are not in the paused
map untouched. -/
theorem applyPaused_findSub_notMem (pm : List (String × JVal))
    (subs : List (String × ClientSubscription)) (m : String)
    (hm : m ∉ pm.map Prod.fst) :
    findSub (applyPaused subs pm).1 m = findSub subs m := by
  induction pm generalizing subs with
  | nil => rfl
  | cons head rest ih =>
    obtain ⟨name, v⟩ := head
    have hm' : m ∉ rest.map Prod.fst := by
      intro hc
      exact hm (by simp [hc])
    have hne : m ≠ name := by
      intro hc
      exact hm (by simp [hc])
    cases hfs : findSub subs name with
    | none =>
      simp only [applyPaused, hfs]
      exact ih _ hm'
    | some sub =>
      simp only [applyPaused, hfs]
      rw [ih _ hm', findSub_setSubPaused_ne subs name m v.asBool hne]

/-- When every entry of the paused map names an existing subscription and
carries a boolean, the validation loop accepts. -/
theorem validatePausedArgs_eq_none (client : UserClient)
    (pm : List (String × JVal))
    (hvalid : ∀ p ∈ pm,
      (findSub client.subscriptions p.1).isSome = true ∧ p.2.isBool = true) :
    validatePausedArgs client pm = none := by
  induction pm with
  | nil => rfl
  | cons head rest ih =>
    obtain ⟨name, v⟩ := head
    obtain ⟨h1, h2⟩ := hvalid (name, v) (List.mem_cons_self _ _)
    cases hfs : findSub client.subscriptions name with
    | none => rw [hfs] at h1; simp at h1
    | some s =>
      simp only [validatePausedArgs, hfs, h2, if_true]
      exact ih fun p hp => hvalid p (List.mem_cons_of_mem _ hp)

/-- When some entry of the paused map names no subscription of the client or
carries a non-boolean, the validation loop rejects with some error message. -/
theorem validatePausedArgs_eq_some (client : UserClient)
    (pm : List (String × JVal))
    (hbad : ∃ p ∈ pm,
      (findSub client.subscriptions p.1).isSome = false ∨ p.2.isBool = false) :
    ∃ e, validatePausedArgs client pm = some e := by
  induction pm with
  | nil => simp at hbad
  | cons head rest ih =>
    obtain ⟨name, v⟩ := head
    cases hfs : findSub client.subscriptions name with
    | none =>
      exact ⟨"this client does not have a subscription named " ++ name,
        by simp [validatePausedArgs, hfs]⟩
    | some s =>
      by_cases hb : v.isBool = true
      · have hrest : ∃ p ∈ rest,
            (findSub client.subscriptions p.1).isSome = false ∨ p.2.isBool = false := by
          obtain ⟨p, hp, hor⟩ := hbad
          rcases List.mem_cons.mp hp with h | h
          · subst h
            rcases hor with h1 | h1
            · rw [hfs] at h1; simp at h1
            · rw [hb] at h1; simp at h1
          · exact ⟨p, h, hor⟩
        obtain ⟨e, he⟩ := ih hrest
        exact ⟨e, by simp [validatePausedArgs, hfs, hb, he]⟩
      · exact ⟨"new value for subscription " ++ name ++ " not a boolean",
          by simp [validatePausedArgs, hfs, hb]⟩

/-- The mutation loop of cmd_debug_set_subscriptions_paused, characterized:
with distinct names that all refer to existing subscriptions, it reports per
name the prior and supplied value, and afterwards each named subscription's
paused flag equals the supplied boolean. -/
theorem applyPaused_states (pm : List (String × JVal))
    (subs : List (String × ClientSubscription))
    (hnodup : (pm.map Prod.fst).Nodup)
    (hvalid : ∀ p ∈ pm, (findSub subs p.1).isSome = true) :
    (applyPaused subs pm).2 =
      (pm.map fun p => (p.1, JVal.jobj
        [("old", JVal.jbool
            (((findSub subs p.1).map ClientSubscription.debug_paused).getD false)),
         ("new", p.2)])) ∧
    ∀ p ∈ pm, findSub (applyPaused subs pm).1 p.1 =
      (findSub subs p.1).map fun s => { s with debug_paused := p.2.asBool } := by
  induction pm generalizing subs with
  | nil => exact ⟨rfl, by simp⟩
  | cons head rest ih =>
    obtain ⟨name, v⟩ := head
    have hnodup' : (rest.map Prod.fst).Nodup := by
      simpa using (List.nodup_cons.mp (by simpa using hnodup)).2
    have hnotin : name ∉ rest.map Prod.fst :=
      (List.nodup_cons.mp (by simpa using hnodup)).1
    obtain ⟨sub, hfs0⟩ :=
      Option.isSome_iff_exists.mp (hvalid (name, v) (List.mem_cons_self _ _))
    have hfs : findSub subs name = some sub := hfs0
    have hvalid' : ∀ p ∈ rest,
        (findSub (setSubPaused subs name v.asBool) p.1).isSome = true := by
      intro p hp
      rw [findSub_setSubPaused_isSome]
      exact hvalid p (List.mem_cons_of_mem _ hp)
    obtain ⟨ihs, ihf⟩ := ih (setSubPaused subs name v.asBool) hnodup' hvalid'
    constructor
    · have htail :
          (rest.map fun p =>
            (p.1, JVal.jobj
              [("old", JVal.jbool
                  (((findSub (setSubPaused subs name v.asBool) p.1).map
                     ClientSubscription.debug_paused).getD false)),
               ("new", p.2)])) =
          (rest.map fun p =>
            (p.1, JVal.jobj
              [("old", JVal.jbool
                  (((findSub subs p.1).map ClientSubscription.debug_paused).getD false)),
               ("new", p.2)])) := by
        refine List.map_congr_left fun p hp => ?_
        have hne : p.1 ≠ name := by
          intro hc
          exact hnotin (hc ▸ List.mem_map_of_mem Prod.fst hp)
        rw [findSub_setSubPaused_ne subs name p.1 v.asBool hne]
      simp only [applyPaused, hfs, ihs, htail, List.map_cons]
      simp [hfs]
    · intro p hp
      rcases List.mem_cons.mp hp with h | h
      · subst h
        simp only [applyPaused, hfs]
        rw [applyPaused_findSub_notMem rest _ name hnotin,
          findSub_setSubPaused_self, hfs]
      · have hne : p.1 ≠ name := by
          intro hc
          exact hnotin (hc ▸ List.mem_map_of_mem Prod.fst h)
        have := ihf p h
        simp only [applyPaused, hfs]
        rw [this, findSub_setSubPaused_ne subs name p.1 v.asBool hne]

/-- The inner loop of getDebugSubscriptionInfo emits exactly one record per
subscription of the client whose owning root matches. -/
theorem subsInfoForClient_filter (uc : UserClient) (rootId : Nat)
    (subs : List (String × ClientSubscription)) :
    subsInfoForClient uc rootId subs =
      ((subs.filter fun s => s.2.rootId == rootId).map
        fun s => subscriptionInfoJson uc s.1 s.2) := by
  induction subs with
  | nil => rfl
  | cons head rest ih =>
    obtain ⟨name, sub⟩ := head
    by_cases h : sub.rootId = rootId
    · simp [subsInfoForClient, h, ih]
    · simp [subsInfoForClient, h, ih]

/-- C5: the subscription debug-info query returns, across all connected
clients, exactly one record per subscription whose owning root is the
requested root (subscriptions of other roots are excluded), each record
carrying the subscription's name, its owning client's identifier and the
buffered ring of recent (timestamp, response) pairs. -/
theorem c5_subscription_info_per_root (clients : List UserClient) (rootId : Nat) :
    getDebugSubscriptionInfo clients rootId =
      (clients.map fun uc =>
        (uc.subscriptions.filter fun s => s.2.rootId == rootId).map fun s =>
          JVal.jobj [("name", JVal.jstr s.1),
                     ("client_id", JVal.jint uc.unique_id),
                     ("last_responses",
                      JVal.jarr (s.2.lastResponses.map lastResponseJson))]).flatten := by
  induction clients with
  | nil => rfl
  | cons uc rest ih =>
    simp [getDebugSubscriptionInfo, subsInfoForClient_filter, subscriptionInfoJson, ih]

/-- C1: when every name in the paused map refers to an existing subscription
of the calling client and every supplied value is a boolean,
debug-set-subscriptions-paused answers, for each name, the prior and the new
value of the paused flag, and afterwards each named subscription's paused
flag equals the supplied boolean. -/
theorem c1_set_subscriptions_paused_ok (client : UserClient)
    (pm : List (String × JVal))
    (hnodup : (pm.map Prod.fst).Nodup)
    (hvalid : ∀ p ∈ pm,
      (findSub client.subscriptions p.1).isSome = true ∧ p.2.isBool = true) :
    (cmd_debug_set_subscriptions_paused client pm).2 =
      Except.ok (JVal.jobj (make_response ++ [("paused", JVal.jobj (pm.map fun p =>
        (p.1, JVal.jobj [("old", JVal.jbool (oldPaused client p.1)),
                         ("new", p.2)])))])) ∧
    ∀ p ∈ pm,
      subPausedFlag (cmd_debug_set_subscriptions_paused client pm).1 p.1 =
        some p.2.asBool := by
  have hv : validatePausedArgs client pm = none :=
    validatePausedArgs_eq_none client pm hvalid
  have hmain := applyPaused_states pm client.subscriptions hnodup
    fun p hp => (hvalid p hp).1
  constructor
  · simp only [cmd_debug_set_subscriptions_paused, hv, hmain.1]
    rfl
  · intro p hp
    obtain ⟨s, hs⟩ := Option.isSome_iff_exists.mp (hvalid p hp).1
    have hflag := hmain.2 p hp
    simp only [cmd_debug_set_subscriptions_paused, hv, subPausedFlag]
    rw [hflag, hs]
    rfl

/-- Witness for C1: a concrete client with two subscriptions, pausing one and
resuming the other. -/
theorem c1_set_subscriptions_paused_ok_witness :
    (c1pm.map Prod.fst).Nodup ∧
    ((cmd_debug_set_subscriptions_paused c1client c1pm).2 =
      Except.ok (JVal.jobj (make_response ++ [("paused", JVal.jobj (c1pm.map fun p =>
        (p.1, JVal.jobj [("old", JVal.jbool (oldPaused c1client p.1)),
                         ("new", p.2)])))])) ∧
     ∀ p ∈ c1pm,
       subPausedFlag (cmd_debug_set_subscriptions_paused c1client c1pm).1 p.1 =
         some p.2.asBool) :=
  ⟨by decide, c1_set_subscriptions_paused_ok c1client c1pm (by decide) (by decide)⟩

/-- C2: when some name in the paused map does not refer to a subscription of
the calling client, or some supplied value is not a boolean,
debug-set-subscriptions-paused answers an error and leaves the client — and
so every subscription's paused flag — unchanged, even when other entries of
the same request were valid. -/
theorem c2_set_subscriptions_paused_error (client : UserClient)
    (pm : List (String × JVal))
    (hbad : ∃ p ∈ pm,
      (findSub client.subscriptions p.1).isSome = false ∨ p.2.isBool = false) :
    (cmd_debug_set_subscriptions_paused client pm).1 = client ∧
    ∃ e, (cmd_debug_set_subscriptions_paused client pm).2 = Except.error e := by
  obtain ⟨e, he⟩ := validatePausedArgs_eq_some client pm hbad
  refine ⟨?_, e, ?_⟩ <;> simp [cmd_debug_set_subscriptions_paused, he]

/-- Witness for C2: a concrete request mixing one valid name with one unknown
name; the client state is unchanged and an error is answered. -/
theorem c2_set_subscriptions_paused_error_witness :
    (cmd_debug_set_subscriptions_paused c2client c2pm).1 = c2client ∧
    ∃ e, (cmd_debug_set_subscriptions_paused c2client c2pm).2 = Except.error e :=
  c2_set_subscriptions_paused_error c2client c2pm (by decide)

end Watchman
